import Mathlib

set_option maxRecDepth 8000

/-!
Verification model of the payload-express-middleware router
(src/src/index.ts).  JavaScript values, the query-string decoder, the
JWT auth middleware, the route handlers and the terminal error handler
are shallowly embedded.  The Payload content engine, the jsonwebtoken
library and the crypto hash are oracles supplied through an
environment structure, and each request is modelled as one pass
through the ordered list of router layers, exactly in registration
order.  URL paths are modelled as their non-empty segment lists.
-/

/-- JavaScript number: finite rational, signed infinity, or NaN. -/
inductive JSNum where
  | q (v : Rat)
  | inf (neg : Bool)
  | nan
deriving DecidableEq

/-- JSON-like JavaScript value.  `null` also stands for `undefined`;
the router never distinguishes the two in a way the claims observe. -/
inductive JVal where
  | null
  | bool (b : Bool)
  | num (n : JSNum)
  | str (s : String)
  | arr (elems : List JVal)
  | obj (fields : List (String × JVal))

mutual

/-- Decidable equality for JVal, written by hand because the nested
lists defeat the deriving handler. -/
def decEqJVal : (a b : JVal) → Decidable (a = b)
  | .null, .null => isTrue rfl
  | .bool a, .bool b =>
    match decEq a b with
    | isTrue h => isTrue (by rw [h])
    | isFalse h => isFalse (by intro hh; cases hh; exact h rfl)
  | .num a, .num b =>
    match decEq a b with
    | isTrue h => isTrue (by rw [h])
    | isFalse h => isFalse (by intro hh; cases hh; exact h rfl)
  | .str a, .str b =>
    match decEq a b with
    | isTrue h => isTrue (by rw [h])
    | isFalse h => isFalse (by intro hh; cases hh; exact h rfl)
  | .arr a, .arr b =>
    match decEqJValList a b with
    | isTrue h => isTrue (by rw [h])
    | isFalse h => isFalse (by intro hh; cases hh; exact h rfl)
  | .obj a, .obj b =>
    match decEqJValFields a b with
    | isTrue h => isTrue (by rw [h])
    | isFalse h => isFalse (by intro hh; cases hh; exact h rfl)
  | .null, .bool _ => isFalse (by intro h; cases h)
  | .null, .num _ => isFalse (by intro h; cases h)
  | .null, .str _ => isFalse (by intro h; cases h)
  | .null, .arr _ => isFalse (by intro h; cases h)
  | .null, .obj _ => isFalse (by intro h; cases h)
  | .bool _, .null => isFalse (by intro h; cases h)
  | .bool _, .num _ => isFalse (by intro h; cases h)
  | .bool _, .str _ => isFalse (by intro h; cases h)
  | .bool _, .arr _ => isFalse (by intro h; cases h)
  | .bool _, .obj _ => isFalse (by intro h; cases h)
  | .num _, .null => isFalse (by intro h; cases h)
  | .num _, .bool _ => isFalse (by intro h; cases h)
  | .num _, .str _ => isFalse (by intro h; cases h)
  | .num _, .arr _ => isFalse (by intro h; cases h)
  | .num _, .obj _ => isFalse (by intro h; cases h)
  | .str _, .null => isFalse (by intro h; cases h)
  | .str _, .bool _ => isFalse (by intro h; cases h)
  | .str _, .num _ => isFalse (by intro h; cases h)
  | .str _, .arr _ => isFalse (by intro h; cases h)
  | .str _, .obj _ => isFalse (by intro h; cases h)
  | .arr _, .null => isFalse (by intro h; cases h)
  | .arr _, .bool _ => isFalse (by intro h; cases h)
  | .arr _, .num _ => isFalse (by intro h; cases h)
  | .arr _, .str _ => isFalse (by intro h; cases h)
  | .arr _, .obj _ => isFalse (by intro h; cases h)
  | .obj _, .null => isFalse (by intro h; cases h)
  | .obj _, .bool _ => isFalse (by intro h; cases h)
  | .obj _, .num _ => isFalse (by intro h; cases h)
  | .obj _, .str _ => isFalse (by intro h; cases h)
  | .obj _, .arr _ => isFalse (by intro h; cases h)

def decEqJValList : (a b : List JVal) → Decidable (a = b)
  | [], [] => isTrue rfl
  | [], _ :: _ => isFalse (by intro h; cases h)
  | _ :: _, [] => isFalse (by intro h; cases h)
  | x :: xs, y :: ys =>
    match decEqJVal x y, decEqJValList xs ys with
    | isTrue h1, isTrue h2 => isTrue (by rw [h1, h2])
    | isFalse h1, _ => isFalse (by intro hh; cases hh; exact h1 rfl)
    | _, isFalse h2 => isFalse (by intro hh; cases hh; exact h2 rfl)

def decEqJValFields : (a b : List (String × JVal)) → Decidable (a = b)
  | [], [] => isTrue rfl
  | [], _ :: _ => isFalse (by intro h; cases h)
  | _ :: _, [] => isFalse (by intro h; cases h)
  | (k1, v1) :: xs, (k2, v2) :: ys =>
    match decEq k1 k2, decEqJVal v1 v2, decEqJValFields xs ys with
    | isTrue h0, isTrue h1, isTrue h2 => isTrue (by rw [h0, h1, h2])
    | isFalse h0, _, _ => isFalse (by intro hh; cases hh; exact h0 rfl)
    | _, isFalse h1, _ => isFalse (by intro hh; cases hh; exact h1 rfl)
    | _, _, isFalse h2 => isFalse (by intro hh; cases hh; exact h2 rfl)

end

instance : DecidableEq JVal := decEqJVal

/-- JavaScript truthiness (NaN, 0, empty string, null are falsy). -/
def jsTruthy : JVal → Bool
  | .null => false
  | .bool b => b
  | .num (.q v) => decide (v ≠ 0)
  | .num (.inf _) => true
  | .num .nan => false
  | .str s => decide (s ≠ "")
  | .arr _ => true
  | .obj _ => true

/-- Property access `v.k`: first matching field of an object, `null`
(that is, undefined) otherwise. -/
def getField (v : JVal) (k : String) : JVal :=
  match v with
  | .obj fs =>
    match fs.find? (fun f => f.1 == k) with
    | some f => f.2
    | none => .null
  | _ => .null

/-- Models `const data = { ...result }; delete data["sessions"]` for an
object result; the spread of a primitive is modelled as the empty
object. -/
def removeField (v : JVal) (k : String) : JVal :=
  match v with
  | .obj fs => .obj (fs.filter (fun f => f.1 ≠ k))
  | _ => .obj []

/-- JavaScript whitespace stripped by Number and parseInt (ASCII part). -/
def isWSChar (c : Char) : Bool :=
  c == ' ' || c == '\t' || c == '\n' || c == '\r' || c == '\x0b' || c == '\x0c'

/-- Trim leading and trailing JavaScript whitespace. -/
def trimJs (l : List Char) : List Char :=
  ((l.dropWhile isWSChar).reverse.dropWhile isWSChar).reverse

/-- Value of a digit character in radices up to 16; 99 when not a digit. -/
def digitVal (c : Char) : Nat :=
  if '0' ≤ c ∧ c ≤ '9' then c.toNat - 48
  else if 'a' ≤ c ∧ c ≤ 'f' then c.toNat - 87
  else if 'A' ≤ c ∧ c ≤ 'F' then c.toNat - 55
  else 99

/-- Decimal value of a digit list. -/
def digitsVal (l : List Char) : Nat :=
  l.foldl (fun a c => a * 10 + (c.toNat - 48)) 0

/-- Value of a digit list in radix r, `none` when some character is out
of range or the list is empty (NaN). -/
def radixNum (r : Nat) (ds : List Char) : Option Nat :=
  if ds ≠ [] ∧ ∀ c ∈ ds, digitVal c < r then
    some (ds.foldl (fun a c => a * r + digitVal c) 0)
  else none

/-- Recognise the 0x / 0b / 0o radix tags accepted by Number. -/
def radixTag (l : List Char) : Option (Nat × List Char) :=
  match l with
  | c1 :: c2 :: r =>
    if c1 = '0' ∧ (c2 = 'x' ∨ c2 = 'X') then some (16, r)
    else if c1 = '0' ∧ (c2 = 'b' ∨ c2 = 'B') then some (2, r)
    else if c1 = '0' ∧ (c2 = 'o' ∨ c2 = 'O') then some (8, r)
    else none
  | _ => none

/-- Split a character list on a separator character, keeping empty
chunks, like the JavaScript split on a one-character string. -/
def splitOnChar (sep : Char) : List Char → List (List Char)
  | [] => [[]]
  | c :: r =>
    let rest := splitOnChar sep r
    if c = sep then [] :: rest
    else
      match rest with
      | h :: t => (c :: h) :: t
      | [] => [[c]]

/-- Rejoin chunks with a separator character. -/
def joinWithChar (sep : Char) : List (List Char) → List Char
  | [] => []
  | [x] => x
  | x :: xs => x ++ sep :: joinWithChar sep xs

/-- Model of JavaScript `s.startsWith(pat)`. -/
def strStartsWith (s pat : String) : Bool :=
  pat.toList.isPrefixOf s.toList

/-- Model of JavaScript `s.toUpperCase()` for ASCII method names. -/
def toUpperJs (s : String) : String :=
  String.mk (s.toList.map Char.toUpper)

/-- Model of JavaScript `s.includes(pat)` for the non-empty patterns
the error handler tests. -/
def strIncludes (s pat : String) : Bool :=
  s.toList.tails.any (fun t => pat.toList.isPrefixOf t)

/-- Strip one leading sign; the Bool is true for a minus sign. -/
def splitSign (l : List Char) : Bool × List Char :=
  match l with
  | c :: r => if c = '+' then (false, r) else if c = '-' then (true, r) else (false, l)
  | [] => (false, l)

/-- Assemble a signed decimal value digits times ten to the power
(e minus fracLen), as a normalized rational. -/
def decRat (neg : Bool) (m : Nat) (fracLen : Nat) (e : Int) : Rat :=
  let n : Int := if neg then -(m : Int) else (m : Int)
  match e - (fracLen : Int) with
  | .ofNat k => mkRat (n * ((10 ^ k : Nat) : Int)) 1
  | .negSucc k => mkRat n (10 ^ (k + 1))

/-- Decimal mantissa `digits`, `digits.digits`, `.digits` or `digits.`:
the digit value with the fraction length; `none` models NaN. -/
def parseMantissa (l : List Char) : Option (Nat × Nat) :=
  match l.dropWhile Char.isDigit with
  | [] =>
    if l.takeWhile Char.isDigit = [] then none
    else some (digitsVal (l.takeWhile Char.isDigit), 0)
  | c :: fr =>
    if c = '.' ∧ (∀ d ∈ fr, d.isDigit = true) ∧ (l.takeWhile Char.isDigit ≠ [] ∨ fr ≠ []) then
      some (digitsVal (l.takeWhile Char.isDigit ++ fr), fr.length)
    else none

/-- Signed decimal exponent part after the letter e; `none` models NaN. -/
def parseExpPart (l : List Char) : Option Int :=
  let (neg, ds) := (splitSign l)
  if ds ≠ [] ∧ ∀ c ∈ ds, c.isDigit = true then
    some (if neg then -(digitsVal ds : Int) else (digitsVal ds : Int))
  else none

/-- Model of the JavaScript `Number(string)` conversion: `none` models
NaN, otherwise the converted value.  Covers whitespace trimming, the
empty string (0), signed decimal literals with optional fraction and
exponent, Infinity, and unsigned 0x / 0b / 0o radix literals. -/
def jsStrToNumber (s : String) : Option JSNum :=
  if trimJs s.toList = [] then some (.q 0)
  else
    match radixTag (trimJs s.toList) with
    | some (r, ds) => (radixNum r ds).map (fun n => JSNum.q (mkRat n 1))
    | none =>
      if (splitSign (trimJs s.toList)).2 = "Infinity".toList then
        some (.inf (splitSign (trimJs s.toList)).1)
      else
        match (splitSign (trimJs s.toList)).2.dropWhile (fun c => decide (c ≠ 'e' ∧ c ≠ 'E')) with
        | [] =>
          (parseMantissa
              ((splitSign (trimJs s.toList)).2.takeWhile (fun c => decide (c ≠ 'e' ∧ c ≠ 'E')))).map
            (fun p => JSNum.q (decRat (splitSign (trimJs s.toList)).1 p.1 p.2 0))
        | _ :: et =>
          match
            parseMantissa
              ((splitSign (trimJs s.toList)).2.takeWhile (fun c => decide (c ≠ 'e' ∧ c ≠ 'E'))),
            parseExpPart et with
          | some p, some e =>
            some (JSNum.q (decRat (splitSign (trimJs s.toList)).1 p.1 p.2 e))
          | _, _ => none

/-- Model of JavaScript `parseInt(string)`: leading whitespace, one
optional sign, an optional 0x tag, then the longest digit prefix;
`none` models NaN. -/
def jsParseInt (s : String) : Option Int :=
  let cs := s.toList.dropWhile isWSChar
  let (neg, cs1) := splitSign cs
  let digits : Option Nat :=
    match cs1 with
    | c1 :: c2 :: r =>
      if c1 = '0' ∧ (c2 = 'x' ∨ c2 = 'X') then
        let hs := r.takeWhile (fun c => decide (digitVal c < 16))
        if hs = [] then none else some (hs.foldl (fun a c => a * 16 + digitVal c) 0)
      else
        let ds := cs1.takeWhile Char.isDigit
        if ds = [] then none else some (digitsVal ds)
    | _ =>
      let ds := cs1.takeWhile Char.isDigit
      if ds = [] then none else some (digitsVal ds)
  digits.map (fun n => if neg then -(n : Int) else (n : Int))

/-- Rendering of a finite JavaScript number as a string.  Integers
render exactly; for non-integral rationals the Rat representation is
used, which is only reached for inputs outside the claims at issue. -/
def ratToJsString (v : Rat) : String :=
  if v.den = 1 then toString v.num else toString v

mutual

/-- Model of JavaScript String(v), used for object keys and parseInt
arguments. -/
def jsToString : JVal → String
  | .null => "null"
  | .bool true => "true"
  | .bool false => "false"
  | .num (.q v) => ratToJsString v
  | .num (.inf true) => "-Infinity"
  | .num (.inf false) => "Infinity"
  | .num .nan => "NaN"
  | .str s => s
  | .arr l => String.intercalate "," (jsToStringList l)
  | .obj _ => "[object Object]"

def jsToStringList : List JVal → List String
  | [] => []
  | v :: vs => jsToString v :: jsToStringList vs

end

/-- The custom qs decoder from queryParser (src/src/index.ts lines
51 to 56): numeric strings (per Number, hence also the empty string)
become numbers, the exact strings true and false become booleans,
everything else stays the raw string. -/
def decoder (value : String) : JVal :=
  match jsStrToNumber value with
  | some n => .num n
  | none =>
    if value = "true" then .bool true
    else if value = "false" then .bool false
    else .str value

/-- Split one query pair on the first equals sign. -/
def qsPair (p : List Char) : String × String :=
  match splitOnChar '=' p with
  | [] => (String.mk p, "")
  | [k] => (String.mk k, "")
  | k :: rest => (String.mk k, String.mk (joinWithChar '=' rest))

/-- Split a raw query string into its non-empty pairs. -/
def qsPairs (s : String) : List (String × String) :=
  ((splitOnChar '&' s.toList).filter (fun p => p ≠ [])).map qsPair

/-- Build the parsed query object: the decoder runs on every key and
every value (qs hands both to a custom decoder); decoded keys are
turned back into strings when used as object keys.  Bracket nesting is
kept verbatim inside the key, which is observation-equivalent for the
properties at issue; qs array-merging of duplicate keys is not
modelled and the claims avoid duplicate keys. -/
def qsPairsToObj (ps : List (String × String)) : JVal :=
  .obj (ps.map (fun p => (jsToString (decoder p.1), decoder p.2)))

/-- Model of `parse(queryString, { decoder })` from queryParser. -/
def qsParse (s : String) : JVal :=
  qsPairsToObj (qsPairs s)

/-- A JavaScript error as the error handler inspects it. -/
structure JsErr where
  name : String := "Error"
  message : String := ""
  status : Option Nat := none
  data : Option JVal := none

/-- HTTP request as this router sees it.  `segments` are the non-empty
path segments (so /api/posts/7 is ["api", "posts", "7"]); `query` is
the query object as parsed by the host server before queryParser runs;
`queryString` models the query portion of req.url. -/
structure Req where
  method : String
  segments : List String
  headers : List (String × String)
  user : Option JVal
  body : JVal
  query : JVal
  queryString : String

/-- `req.path`, rebuilt from the segments. -/
def reqFullPath (req : Req) : String :=
  "/" ++ String.intercalate "/" req.segments

/-- `req.headers["authorization"]`, with undefined read as the empty
string (the middleware only ever tests it against Bearer prefixes). -/
def reqAuthHeader (req : Req) : String :=
  (((req.headers.find? (fun h => h.1 == "authorization"))).map (fun h => h.2)).getD ""

/-- One value in a parameter object handed to a content-engine call:
either a plain JSON value, or a reference to the live request or
response object. -/
inductive ArgVal where
  | v (j : JVal)
  | reqRef
  | resRef
deriving DecidableEq

/-- A JavaScript object literal passed to an engine call, as an ordered
field list; a later entry with the same key shadows an earlier one,
exactly as in a spread literal. -/
abbrev Args := List (String × ArgVal)

/-- Field lookup in an argument object, with the later-entry-wins
semantics of JavaScript object literals. -/
def argLookup (a : Args) (k : String) : Option ArgVal :=
  a.foldl (fun acc p => if p.1 = k then some p.2 else acc) none

/-- The content-engine operations this router invokes.  `del` models
payload.delete. -/
inductive EngineOp where
  | find
  | count
  | findByID
  | create
  | update
  | del
  | login
  | logout
deriving DecidableEq

/-- One observable external call made while handling a request. -/
inductive Call where
  | engine (op : EngineOp) (args : Args)
  | endpointInvoke (path method : String)
deriving DecidableEq

/-- What a custom endpoint handler returns: a status (0 models a falsy
missing status), the Location header, and the JSON body. -/
structure EndpointResult where
  status : Nat
  location : Option String
  body : JVal

/-- The synthesized request handed to a custom endpoint handler.  The
constant fields of the literal in the source (payload, fallbackLocale,
context, payloadAPI, user, routeParams, the no-op t and the data
loader) are not observable by the claims and are omitted. -/
structure SynthReq where
  headers : List (String × String)
  query : JVal

/-- A registered custom endpoint from payload.config.endpoints. -/
structure Endpoint where
  path : String
  method : String
  hasHandler : Bool := true
  handler : SynthReq → Except JsErr EndpointResult

/-- The environment: the content engine (collections registry, custom
endpoints, secret, operations), the jwt verify oracle, the crypto hash
oracle, and the simpleResponses option. -/
structure Env where
  collections : List String
  endpoints : List Endpoint
  secret : String
  engineRun : EngineOp → Args → Except JsErr JVal
  verify : String → String → Except String JVal
  sha256hex32 : String → String
  simpleResponses : Bool

/-- An HTTP response written by the router. -/
structure HttpResponse where
  status : Nat
  body : JVal
  redirect : Option String := none
deriving DecidableEq

/-- Outcome of one layer: continue to the next layer with the (possibly
mutated) request, write a response, leave the router via
next("router"), or forward an error to the error middleware. -/
inductive Step where
  | next (req : Req)
  | respond (r : HttpResponse)
  | skipRouter
  | fail (e : JsErr)

/-- Truthiness of `err.data?.errors`. -/
def errDataErrors (err : JsErr) : Bool :=
  match err.data with
  | some d => jsTruthy (getField d "errors")
  | none => false

/-- The terminal error-handling middleware (src/src/index.ts lines 487
to 522), translated branch by branch.  The data key of the 400 body is
present exactly when err.data is defined, as res.json drops undefined
fields. -/
def errorHandler (err : JsErr) : HttpResponse :=
  if (err.name == "ValidationError") || errDataErrors err then
    { status := 400
      body := .obj ([("error", .str "Validation Failed"), ("message", .str err.message)] ++
        (match err.data with | some d => [("data", d)] | none => [])) }
  else if err.status == some 401 then
    { status := 401, body := .obj [("errors", .obj [("message", .arr [.str err.message])])] }
  else if strIncludes err.message "Not Found" || strIncludes err.message "Cast to ObjectId failed" then
    { status := 404, body := .obj [("error", .str "Resource Not Found"), ("message", .str err.message)] }
  else
    { status := 500, body := .obj [("error", .str "Server Error"), ("message", .str err.message)] }

/-- The 401 body written by the isAuthenticated gate. -/
def authRequiredResponse : HttpResponse :=
  { status := 401
    body := .obj [("error", .str "Unauthorized"),
                  ("message", .str "Payload: Authentication required to perform actions.")] }

/-- The token string: authHeader.split(" ")[1], with undefined read as
the empty string. -/
def bearerToken (req : Req) : String :=
  String.mk ((splitOnChar ' ' (reqAuthHeader req).toList).getD 1 [])

/-- The lookup arguments the JWT middleware passes to payload.findByID:
collection users, the decoded id, overrideAccess true and the live
request. -/
def jwtUserLookupArgs (userId : JVal) : Args :=
  [("collection", .v (.str "users")), ("id", .v userId),
   ("overrideAccess", .v (.bool true)), ("req", .reqRef)]

/-- The JWT auth middleware (src/src/index.ts lines 74 to 152).  It
never responds and never raises: every failure path falls through to
next() with the request unchanged.  The payload instance is always
present, so the !payload disjunct of the guard is constantly false; an
absent authorization header behaves as the empty string, as both fail
the Bearer prefix test.  A falsy decoded id raises inside the try and
is swallowed by the catch, like every verify error and every lookup
error. -/
def payloadJwtAuthMiddleware (req : Req) (env : Env) : Req × List Call :=
  if env.secret = "" ∨ reqAuthHeader req = "" ∨
      ¬ strStartsWith (reqAuthHeader req) "Bearer " then
    (req, [])
  else
    if bearerToken req = "" then (req, [])
    else
      match env.verify (bearerToken req) (env.sha256hex32 env.secret) with
      | .error _ => (req, [])
      | .ok decoded =>
        if jsTruthy (getField decoded "id") = false then (req, [])
        else
          match env.engineRun .findByID (jwtUserLookupArgs (getField decoded "id")) with
          | .error _ => (req, [.engine .findByID (jwtUserLookupArgs (getField decoded "id"))])
          | .ok doc =>
            if jsTruthy doc then
              ({ req with user := some doc },
               [.engine .findByID (jwtUserLookupArgs (getField decoded "id"))])
            else (req, [.engine .findByID (jwtUserLookupArgs (getField decoded "id"))])

/-- The isAuthenticated gate (src/src/index.ts lines 251 to 260). -/
def isAuthenticated (req : Req) : Step :=
  match req.user with
  | none => .respond authRequiredResponse
  | some _ => .next req

/-- The queryParser middleware (src/src/index.ts lines 43 to 64):
re-parses the query portion of req.url with the coercing decoder and
stores it on the request. -/
def queryParser (req : Req) : Req :=
  { req with query := qsParse req.queryString }

/-- `depth: query.depth ? parseInt(query.depth) : dflt`. -/
def depthVal (q : JVal) (dflt : Int) : JVal :=
  let d := getField q "depth"
  if jsTruthy d then
    match jsParseInt (jsToString d) with
    | some n => .num (.q (mkRat n 1))
    | none => .num .nan
  else .num (.q (mkRat dflt 1))

/-- The `...query` spread at the end of a call literal. -/
def spreadQuery : JVal → Args
  | .obj fs => fs.map (fun f => (f.1, ArgVal.v f.2))
  | _ => []

/-- Arguments of the find-many call (lines 351 to 356). -/
def findCallArgs (q : JVal) (c : String) : Args :=
  [("collection", .v (.str c)), ("depth", .v (depthVal q 0)), ("req", .reqRef)] ++ spreadQuery q

/-- Arguments of the count call (lines 377 to 382). -/
def countCallArgs (q : JVal) (c : String) : Args :=
  [("collection", .v (.str c)), ("depth", .v (depthVal q 0)), ("req", .reqRef)] ++ spreadQuery q

/-- Arguments of the find-by-id call (lines 401 to 407). -/
def findByIDCallArgs (q : JVal) (c i : String) : Args :=
  [("collection", .v (.str c)), ("id", .v (.str i)), ("depth", .v (depthVal q 2)),
   ("req", .reqRef)] ++ spreadQuery q

/-- Arguments of the me-route findByID call (lines 323 to 326). -/
def meCallArgs (c : String) (userId : JVal) : Args :=
  [("collection", .v (.str c)), ("id", .v userId)]

/-- Arguments of the login call (lines 274 to 280). -/
def loginCallArgs (c : String) (body : JVal) : Args :=
  [("collection", .v (.str c)), ("data", .v body), ("req", .reqRef), ("res", .resRef)]

/-- Arguments of the logout call (lines 298 to 302). -/
def logoutCallArgs (c : String) : Args :=
  [("collection", .v (.str c)), ("req", .reqRef), ("res", .resRef)]

/-- Arguments of the create call (lines 431 to 434): no req field. -/
def createCallArgs (c : String) (body : JVal) : Args :=
  [("collection", .v (.str c)), ("data", .v body)]

/-- Arguments of the update call (lines 453 to 457): no req field. -/
def updateCallArgs (c i : String) (body : JVal) : Args :=
  [("collection", .v (.str c)), ("id", .v (.str i)), ("data", .v body)]

/-- Arguments of the delete call (lines 476 to 479): no req field. -/
def deleteCallArgs (c i : String) : Args :=
  [("collection", .v (.str c)), ("id", .v (.str i))]

/-- Relay a custom endpoint result (lines 210 to 230): 3xx statuses
redirect to the Location header, otherwise the status (200 when falsy)
and JSON body are sent; a raised error is logged and leaves the router
through next("router"), bypassing the error middleware. -/
def relayEndpoint (ep : Endpoint) (req : Req) : Step :=
  match ep.handler { headers := req.headers, query := req.query } with
  | .ok r =>
    if 300 ≤ r.status ∧ r.status < 400 then
      .respond { status := r.status, body := .null, redirect := r.location }
    else
      .respond { status := if r.status = 0 then 200 else r.status, body := r.body }
  | .error _ => .skipRouter

/-- The router.all catch-all layer (src/src/index.ts lines 155 to 232)
matching the pattern slash (api or auth) slash segment.  Express
exposes RegExp capture groups as numbered params, so the destructured
req.params.customPath is always undefined: the collection membership
test can never pass, and the custom-endpoint search runs even when the
segment names a registered collection. -/
def layerAll (req : Req) (env : Env) : Step × List Call :=
  match req.segments with
  | p :: seg :: _ =>
    if (p = "api" ∨ p = "auth") ∧ seg ≠ "" then
      let customPath : Option String := none
      if (customPath.map (fun c => env.collections.contains c)).getD false then
        (.next req, [])
      else
        match env.endpoints.find? (fun e => e.path == reqFullPath req) with
        | none => (.next req, [])
        | some ep =>
          if ep.hasHandler then
            if toUpperJs ep.method ≠ req.method then (.next req, [])
            else (relayEndpoint ep req, [.endpointInvoke ep.path ep.method])
          else (.next req, [])
    else (.next req, [])
  | _ => (.next req, [])

/-- The router.use("/api/:collection/") gate (lines 234 to 245):
requests under /api whose first parameter is not a registered
collection leave the router via next("router"). -/
def layerCollectionGate (req : Req) (env : Env) : Step × List Call :=
  match req.segments with
  | a :: c :: _ =>
    if a = "api" ∧ c ≠ "" then
      if env.collections.contains c then (.next req, []) else (.skipRouter, [])
    else (.next req, [])
  | _ => (.next req, [])

/-- POST /api/:collection/login (lines 268 to 285). -/
def loginRoute (req : Req) (env : Env) : Step × List Call :=
  match req.segments with
  | [a, c, b] =>
    if req.method = "POST" ∧ a = "api" ∧ b = "login" ∧ c ≠ "" then
      let args := loginCallArgs c req.body
      match env.engineRun .login args with
      | .ok result => (.respond { status := 200, body := result }, [.engine .login args])
      | .error e => (.fail e, [.engine .login args])
    else (.next req, [])
  | _ => (.next req, [])

/-- POST /api/:collection/logout (lines 291 to 307). -/
def logoutRoute (req : Req) (env : Env) : Step × List Call :=
  match req.segments with
  | [a, c, b] =>
    if req.method = "POST" ∧ a = "api" ∧ b = "logout" ∧ c ≠ "" then
      let args := logoutCallArgs c
      match env.engineRun .logout args with
      | .ok result => (.respond { status := 200, body := result }, [.engine .logout args])
      | .error e => (.fail e, [.engine .logout args])
    else (.next req, [])
  | _ => (.next req, [])

/-- The TypeError raised by `const { id } = req.user` when req.user is
undefined.  Node prints quotes around the property and receiver names;
the quotes are elided here, which no branch of the error handler
observes. -/
def destructureIdErr : JsErr :=
  { name := "TypeError"
    message := "Cannot destructure property id of req.user as it is undefined." }

/-- GET /api/:collection/me (lines 314 to 334).  The route runs the JWT
middleware but has no isAuthenticated gate: with no resolved user the
handler destructures req.user and the raised TypeError goes to the
error middleware. -/
def meRoute (req : Req) (env : Env) : Step × List Call :=
  match req.segments with
  | [a, c, b] =>
    if req.method = "GET" ∧ a = "api" ∧ b = "me" ∧ c ≠ "" then
      match payloadJwtAuthMiddleware req env with
      | (r1, t1) =>
        match r1.user with
        | none => (.fail destructureIdErr, t1)
        | some u =>
          let args := meCallArgs c (getField u "id")
          match env.engineRun .findByID args with
          | .ok result =>
            (.respond { status := 200, body := removeField result "sessions" },
             t1 ++ [.engine .findByID args])
          | .error e => (.fail e, t1 ++ [.engine .findByID args])
    else (.next req, [])
  | _ => (.next req, [])

/-- GET /api/:collection find-many (lines 343 to 362). -/
def findManyRoute (req : Req) (env : Env) : Step × List Call :=
  match req.segments with
  | [a, c] =>
    if req.method = "GET" ∧ a = "api" ∧ c ≠ "" then
      match payloadJwtAuthMiddleware req env with
      | (r1, t1) =>
        match isAuthenticated r1 with
        | .respond r => (.respond r, t1)
        | _ =>
          let r2 := queryParser r1
          let args := findCallArgs r2.query c
          match env.engineRun .find args with
          | .ok result =>
            (.respond { status := 200
                        body := if env.simpleResponses then getField result "docs" else result },
             t1 ++ [.engine .find args])
          | .error e => (.fail e, t1 ++ [.engine .find args])
    else (.next req, [])
  | _ => (.next req, [])

/-- GET /api/:collection/count (lines 369 to 386). -/
def countRoute (req : Req) (env : Env) : Step × List Call :=
  match req.segments with
  | [a, c, b] =>
    if req.method = "GET" ∧ a = "api" ∧ b = "count" ∧ c ≠ "" then
      match payloadJwtAuthMiddleware req env with
      | (r1, t1) =>
        match isAuthenticated r1 with
        | .respond r => (.respond r, t1)
        | _ =>
          let r2 := queryParser r1
          let args := countCallArgs r2.query c
          match env.engineRun .count args with
          | .ok result => (.respond { status := 200, body := result }, t1 ++ [.engine .count args])
          | .error e => (.fail e, t1 ++ [.engine .count args])
    else (.next req, [])
  | _ => (.next req, [])

/-- GET /api/:collection/:id find-by-id (lines 393 to 417).  This route
does not run queryParser: the spread uses the host-parsed query. -/
def findByIDRoute (req : Req) (env : Env) : Step × List Call :=
  match req.segments with
  | [a, c, i] =>
    if req.method = "GET" ∧ a = "api" ∧ c ≠ "" ∧ i ≠ "" then
      match payloadJwtAuthMiddleware req env with
      | (r1, t1) =>
        match isAuthenticated r1 with
        | .respond r => (.respond r, t1)
        | _ =>
          let args := findByIDCallArgs r1.query c i
          match env.engineRun .findByID args with
          | .ok result =>
            if jsTruthy result then
              (.respond { status := 200, body := result }, t1 ++ [.engine .findByID args])
            else
              (.respond { status := 404
                          body := .obj [("error", .str (c ++ " with ID " ++ i ++ " not found."))] },
               t1 ++ [.engine .findByID args])
          | .error e => (.fail e, t1 ++ [.engine .findByID args])
    else (.next req, [])
  | _ => (.next req, [])

/-- POST /api/:collection create (lines 424 to 439). -/
def createRoute (req : Req) (env : Env) : Step × List Call :=
  match req.segments with
  | [a, c] =>
    if req.method = "POST" ∧ a = "api" ∧ c ≠ "" then
      match payloadJwtAuthMiddleware req env with
      | (r1, t1) =>
        match isAuthenticated r1 with
        | .respond r => (.respond r, t1)
        | _ =>
          let args := createCallArgs c r1.body
          match env.engineRun .create args with
          | .ok result => (.respond { status := 201, body := result }, t1 ++ [.engine .create args])
          | .error e => (.fail e, t1 ++ [.engine .create args])
    else (.next req, [])
  | _ => (.next req, [])

/-- PATCH /api/:collection/:id update (lines 446 to 461). -/
def updateRoute (req : Req) (env : Env) : Step × List Call :=
  match req.segments with
  | [a, c, i] =>
    if req.method = "PATCH" ∧ a = "api" ∧ c ≠ "" ∧ i ≠ "" then
      match payloadJwtAuthMiddleware req env with
      | (r1, t1) =>
        match isAuthenticated r1 with
        | .respond r => (.respond r, t1)
        | _ =>
          let args := updateCallArgs c i r1.body
          match env.engineRun .update args with
          | .ok result => (.respond { status := 200, body := result }, t1 ++ [.engine .update args])
          | .error e => (.fail e, t1 ++ [.engine .update args])
    else (.next req, [])
  | _ => (.next req, [])

/-- DELETE /api/:collection/:id (lines 468 to 484). -/
def deleteRoute (req : Req) (env : Env) : Step × List Call :=
  match req.segments with
  | [a, c, i] =>
    if req.method = "DELETE" ∧ a = "api" ∧ c ≠ "" ∧ i ≠ "" then
      match payloadJwtAuthMiddleware req env with
      | (r1, t1) =>
        match isAuthenticated r1 with
        | .respond r => (.respond r, t1)
        | _ =>
          let args := deleteCallArgs c i
          match env.engineRun .del args with
          | .ok result => (.respond { status := 200, body := result }, t1 ++ [.engine .del args])
          | .error e => (.fail e, t1 ++ [.engine .del args])
    else (.next req, [])
  | _ => (.next req, [])

/-- Sequence two layers: a next() continues with the threaded request,
anything else short-circuits, traces concatenate. -/
def seqStep (s : Step × List Call) (k : Req → Step × List Call) : Step × List Call :=
  match s with
  | (.next r, t) =>
    match k r with
    | (s2, t2) => (s2, t ++ t2)
  | other => other

/-- What the router as a whole does with a request: either it writes a
response, or the request passes out of the router (fall-through or
next("router")) with nothing written. -/
inductive RouterOutcome where
  | response (r : HttpResponse)
  | passedOn
deriving DecidableEq

/-- Close a layer chain: errors reach the terminal error middleware,
next("router") and falling off the end both leave the router without a
response. -/
def finalize : Step × List Call → RouterOutcome × List Call
  | (.next _, t) => (.passedOn, t)
  | (.skipRouter, t) => (.passedOn, t)
  | (.respond r, t) => (.response r, t)
  | (.fail e, t) => (.response (errorHandler e), t)

/-- One request through the router built by payloadAPIRouterMiddleware:
the layers run in registration order, and the error middleware is
terminal. -/
def routerDispatch (req : Req) (env : Env) : RouterOutcome × List Call :=
  finalize (seqStep (layerAll req env) (fun r1 =>
    seqStep (layerCollectionGate r1 env) (fun r2 =>
    seqStep (loginRoute r2 env) (fun r3 =>
    seqStep (logoutRoute r3 env) (fun r4 =>
    seqStep (meRoute r4 env) (fun r5 =>
    seqStep (findManyRoute r5 env) (fun r6 =>
    seqStep (countRoute r6 env) (fun r7 =>
    seqStep (findByIDRoute r7 env) (fun r8 =>
    seqStep (createRoute r8 env) (fun r9 =>
    seqStep (updateRoute r9 env) (fun r10 =>
    seqStep (deleteRoute r10 env) (fun r11 => (.next r11, [])))))))))))))

/-- A sample document body. -/
def sampleDoc : JVal := .obj [("id", .str "u1"), ("title", .str "hello")]

/-- An environment with two collections, no custom endpoints, an engine
that returns null for every call and a verifier that rejects every
token. -/
def envStd : Env :=
  { collections := ["users", "posts"]
    endpoints := []
    secret := "topsecret"
    engineRun := fun _ _ => .ok .null
    verify := fun _ _ => .error "invalid signature"
    sha256hex32 := fun _ => "0123456789abcdef0123456789abcdef"
    simpleResponses := false }

/-- GET /api/users/me with no Authorization header and no resolved
user. -/
def reqMeNoAuth : Req :=
  { method := "GET", segments := ["api", "users", "me"], headers := [],
    user := none, body := .null, query := .obj [], queryString := "" }

/-- A custom endpoint whose handler raises. -/
def boomEndpoint : Endpoint :=
  { path := "/api/boom", method := "GET",
    handler := fun _ => .error { message := "boom" } }

/-- Environment for the escaping-error scenario: one registered
collection and one custom endpoint that raises. -/
def envBoom : Env :=
  { envStd with endpoints := [boomEndpoint] }

/-- GET /api/boom, hitting the raising endpoint. -/
def reqBoom : Req :=
  { method := "GET", segments := ["api", "boom"], headers := [],
    user := none, body := .null, query := .obj [], queryString := "" }

/-- A custom endpoint registered at the same path as collection CRUD. -/
def shadowEndpoint : Endpoint :=
  { path := "/api/posts", method := "GET",
    handler := fun _ => .ok { status := 200, location := none, body := .obj [("custom", .bool true)] } }

/-- Environment where a custom endpoint path collides with the posts
collection routes. -/
def envShadow : Env :=
  { envStd with endpoints := [shadowEndpoint] }

/-- GET /api/posts with a resolved user: per the claim this should hit
the generic CRUD find route. -/
def reqPostsList : Req :=
  { method := "GET", segments := ["api", "posts"], headers := [],
    user := some sampleDoc, body := .null, query := .obj [], queryString := "" }

/-- Two custom endpoints sharing a path, GET registered first. -/
def specialGetEndpoint : Endpoint :=
  { path := "/api/special", method := "GET",
    handler := fun _ => .ok { status := 200, location := none, body := .str "get" } }

def specialPostEndpoint : Endpoint :=
  { path := "/api/special", method := "POST",
    handler := fun _ => .ok { status := 200, location := none, body := .str "post" } }

/-- Environment with the two same-path endpoints. -/
def envSpecial : Env :=
  { envStd with endpoints := [specialGetEndpoint, specialPostEndpoint] }

/-- POST /api/special: exactly matches specialPostEndpoint. -/
def reqSpecialPost : Req :=
  { method := "POST", segments := ["api", "special"], headers := [],
    user := none, body := .null, query := .obj [], queryString := "" }

/-- GET /api/special: exactly matches specialGetEndpoint. -/
def reqSpecialGet : Req :=
  { method := "GET", segments := ["api", "special"], headers := [],
    user := none, body := .null, query := .obj [], queryString := "" }

/-- POST /api/posts with a resolved user and a document body. -/
def reqCreatePost : Req :=
  { method := "POST", segments := ["api", "posts"], headers := [],
    user := some sampleDoc, body := .obj [("title", .str "t")], query := .obj [], queryString := "" }

/-- GET /api/posts with a bad bearer token and no resolved user. -/
def reqBadToken : Req :=
  { method := "GET", segments := ["api", "posts"],
    headers := [("authorization", "Bearer deadbeef")],
    user := none, body := .null, query := .obj [], queryString := "" }

/-- GET /api/posts/p7 with a resolved user, no query. -/
def reqFindMissing : Req :=
  { method := "GET", segments := ["api", "posts", "p7"], headers := [],
    user := some sampleDoc, body := .null, query := .obj [], queryString := "" }

/-- GET /api/nosuch/x: unknown collection, no endpoint registered at
that path. -/
def reqUnknown : Req :=
  { method := "GET", segments := ["api", "nosuch", "x"], headers := [],
    user := none, body := .null, query := .obj [], queryString := "" }

/-- Modelled from the spec (the claims about the error translator):
the translator as a decision list, first matching rule wins, with a
500 fallback.  Presence of field-level data is read as JavaScript
truthiness of err.data.errors, matching the optional-chaining test. -/
def translatorRules : List ((JsErr → Bool) × (JsErr → HttpResponse)) :=
  [ (fun e => (e.name == "ValidationError") || errDataErrors e,
     fun e => { status := 400
                body := .obj ([("error", .str "Validation Failed"), ("message", .str e.message)] ++
                  (match e.data with | some d => [("data", d)] | none => [])) }),
    (fun e => e.status == some 401,
     fun e => { status := 401, body := .obj [("errors", .obj [("message", .arr [.str e.message])])] }),
    (fun e => strIncludes e.message "Not Found" || strIncludes e.message "Cast to ObjectId failed",
     fun e => { status := 404, body := .obj [("error", .str "Resource Not Found"), ("message", .str e.message)] }) ]

/-- Modelled from the spec: first rule of the decision list that
matches decides the response; anything else is a 500. -/
def translatorSpec (e : JsErr) : HttpResponse :=
  match translatorRules.find? (fun r => r.1 e) with
  | some r => r.2 e
  | none => { status := 500, body := .obj [("error", .str "Server Error"), ("message", .str e.message)] }

/-- Modelled from the spec: a numeric-looking string, read
conservatively as an optionally signed decimal digit string with at
least one digit and at most one decimal point. -/
def numericLookingSpec (s : String) : Bool :=
  let cs1 := (splitSign s.toList).2
  (decide (cs1 ≠ [])) && cs1.any Char.isDigit &&
    cs1.all (fun c => c.isDigit || c == '.') &&
    decide ((cs1.filter (fun c => c == '.')).length ≤ 1)

/-- A response body carries the error marker when it has a non-null
error or errors field. -/
def hasErrKey (b : JVal) : Prop :=
  getField b "error" ≠ JVal.null ∨ getField b "errors" ≠ JVal.null

/-- An ambiguous error matching every translator test at once. -/
def ambiguousErr : JsErr :=
  { name := "ValidationError", message := "Not Found",
    status := some 401, data := some (.obj [("errors", .bool true)]) }

/-- The ways bearer-token resolution can fail once a token is present:
verification error, decoded payload without a truthy id, lookup error,
or a falsy user document. -/
def jwtFailure (req : Req) (env : Env) : Prop :=
  (∃ s, env.verify (bearerToken req) (env.sha256hex32 env.secret) = .error s) ∨
  (∃ d, env.verify (bearerToken req) (env.sha256hex32 env.secret) = .ok d ∧
        jsTruthy (getField d "id") = false) ∨
  (∃ d e, env.verify (bearerToken req) (env.sha256hex32 env.secret) = .ok d ∧
          jsTruthy (getField d "id") = true ∧
          env.engineRun .findByID (jwtUserLookupArgs (getField d "id")) = .error e) ∨
  (∃ d doc, env.verify (bearerToken req) (env.sha256hex32 env.secret) = .ok d ∧
            jsTruthy (getField d "id") = true ∧
            env.engineRun .findByID (jwtUserLookupArgs (getField d "id")) = .ok doc ∧
            jsTruthy doc = false)

/-- A GET /api/:collection request with no resolved user. -/
def mkGetReq (c : String) (hdrs : List (String × String)) : Req :=
  { method := "GET", segments := ["api", c], headers := hdrs, user := none,
    body := .null, query := .obj [], queryString := "" }

/-- A GET /api/:collection/:id request with a resolved user and no
query string. -/
def mkGetIdReq (c i : String) (u : JVal) : Req :=
  { method := "GET", segments := ["api", c, i], headers := [], user := some u,
    body := .null, query := .obj [], queryString := "" }

/-- A GET /api/:collection request with a resolved user and no query. -/
def mkAuthedGetReq (c : String) (u : JVal) : Req :=
  { method := "GET", segments := ["api", c], headers := [], user := some u,
    body := .null, query := .obj [], queryString := "" }

/-- A POST /api/:collection request with a resolved user and a body. -/
def mkAuthedPostReq (c : String) (u b : JVal) : Req :=
  { method := "POST", segments := ["api", c], headers := [], user := some u,
    body := b, query := .obj [], queryString := "" }

/-- A request with arbitrary method and tail under /api/:collection. -/
def mkApiReq (m c : String) (rest : List String) (u : Option JVal) (b q : JVal) : Req :=
  { method := m, segments := "api" :: c :: rest, headers := [], user := u,
    body := b, query := q, queryString := "" }

/-- A POST /api/:collection/login request with a credentials body. -/
def mkLoginReq (c : String) (b : JVal) : Req :=
  { method := "POST", segments := ["api", c, "login"], headers := [], user := none,
    body := b, query := .obj [], queryString := "" }

/-- A POST /api/:collection/logout request. -/
def mkLogoutReq (c : String) : Req :=
  { method := "POST", segments := ["api", c, "logout"], headers := [], user := none,
    body := .null, query := .obj [], queryString := "" }

/-- A GET /api/:collection/me request with a resolved user. -/
def mkMeReq (c : String) (u : JVal) : Req :=
  { method := "GET", segments := ["api", c, "me"], headers := [], user := some u,
    body := .null, query := .obj [], queryString := "" }

/-- A GET /api/:collection/count request with a resolved user. -/
def mkCountReq (c : String) (u : JVal) : Req :=
  { method := "GET", segments := ["api", c, "count"], headers := [], user := some u,
    body := .null, query := .obj [], queryString := "" }

/-- A PATCH /api/:collection/:id request with a resolved user and a
partial body. -/
def mkPatchReq (c i : String) (u b : JVal) : Req :=
  { method := "PATCH", segments := ["api", c, i], headers := [], user := some u,
    body := b, query := .obj [], queryString := "" }

/-- A DELETE /api/:collection/:id request with a resolved user. -/
def mkDeleteReq (c i : String) (u : JVal) : Req :=
  { method := "DELETE", segments := ["api", c, i], headers := [], user := some u,
    body := .null, query := .obj [], queryString := "" }

/-- An environment whose engine fails every call with a plain error. -/
def errEngineEnv : Env :=
  { envStd with engineRun := fun _ _ => .error { message := "boom" } }

theorem dropWhile_eq_self_of_all {p : Char → Bool} {l : List Char}
    (h : ∀ c ∈ l, p c = false) : l.dropWhile p = l := by
  cases l with
  | nil => rfl
  | cons c r => simp [List.dropWhile, h c (List.mem_cons_self c r)]

theorem takeWhile_eq_self_of_all {p : Char → Bool} {l : List Char}
    (h : ∀ c ∈ l, p c = true) : l.takeWhile p = l := by
  induction l with
  | nil => rfl
  | cons c r ih =>
    simp [List.takeWhile_cons, h c (List.mem_cons_self c r),
          ih (fun d hd => h d (List.mem_cons_of_mem c hd))]

theorem dropWhile_eq_nil_of_all {p : Char → Bool} {l : List Char}
    (h : ∀ c ∈ l, p c = true) : l.dropWhile p = [] := by
  induction l with
  | nil => rfl
  | cons c r ih =>
    rw [List.dropWhile_cons, h c (List.mem_cons_self c r)]
    exact ih (fun d hd => h d (List.mem_cons_of_mem c hd))

theorem mem_of_mem_dropWhile {p : Char → Bool} {l : List Char} {c : Char}
    (h : c ∈ l.dropWhile p) : c ∈ l := by
  induction l with
  | nil => simp [List.dropWhile] at h
  | cons d r ih =>
    rw [List.dropWhile_cons] at h
    cases hpd : p d with
    | true => rw [hpd] at h; simp at h; exact List.mem_cons_of_mem d (ih h)
    | false => rw [hpd] at h; simp at h; exact List.mem_cons.mpr h

theorem dropWhile_head_false {p : Char → Bool} {l fr : List Char} {c : Char}
    (h : l.dropWhile p = c :: fr) : p c = false := by
  induction l with
  | nil => simp [List.dropWhile] at h
  | cons d r ih =>
    rw [List.dropWhile_cons] at h
    cases hpd : p d with
    | true => rw [hpd] at h; simp at h; exact ih h
    | false =>
      rw [hpd] at h
      simp at h
      rw [← h.1]
      exact hpd

theorem trimJs_eq_self {l : List Char} (h : ∀ c ∈ l, isWSChar c = false) :
    trimJs l = l := by
  unfold trimJs
  rw [dropWhile_eq_self_of_all h]
  rw [dropWhile_eq_self_of_all (fun c hc => h c (List.mem_reverse.mp hc))]
  exact List.reverse_reverse l

theorem notWS_of_digit_dot {c : Char} (h : c.isDigit = true ∨ c = '.') :
    isWSChar c = false := by
  have hne : ∀ w ∈ [' ', '\t', '\n', '\r', '\x0b', '\x0c'], (c == w) = false := by
    intro w hw
    rw [beq_eq_false_iff_ne]
    rintro rfl
    rcases h with h | h
    · revert h; fin_cases hw <;> decide
    · revert h; fin_cases hw <;> decide
  simp only [isWSChar]
  rw [hne ' ' (by simp), hne '\t' (by simp), hne '\n' (by simp),
      hne '\r' (by simp), hne '\x0b' (by simp), hne '\x0c' (by simp)]
  rfl

theorem splitSign_shape (l : List Char) :
    (splitSign l).2 = l ∨
      ∃ c0, l = c0 :: (splitSign l).2 ∧ (c0 = '+' ∨ c0 = '-') := by
  cases l with
  | nil => left; rfl
  | cons c r =>
    by_cases h1 : c = '+'
    · right; exact ⟨c, by simp [splitSign, h1], Or.inl h1⟩
    · by_cases h2 : c = '-'
      · right; exact ⟨c, by simp [splitSign, h1, h2], Or.inr h2⟩
      · left; simp [splitSign, h1, h2]

theorem radixTag_none_of_digit_dot {l : List Char}
    (h : ∀ c ∈ l.drop 1, c.isDigit = true ∨ c = '.') : radixTag l = none := by
  match l with
  | [] => rfl
  | [c] => rfl
  | c1 :: c2 :: r =>
    have h2 : c2.isDigit = true ∨ c2 = '.' := h c2 (by simp)
    have hred : radixTag (c1 :: c2 :: r) =
        (if c1 = '0' ∧ (c2 = 'x' ∨ c2 = 'X') then some (16, r)
         else if c1 = '0' ∧ (c2 = 'b' ∨ c2 = 'B') then some (2, r)
         else if c1 = '0' ∧ (c2 = 'o' ∨ c2 = 'O') then some (8, r)
         else none) := rfl
    rw [hred, if_neg, if_neg, if_neg]
    · rintro ⟨-, h3 | h3⟩ <;> rw [h3] at h2 <;> revert h2 <;> decide
    · rintro ⟨-, h3 | h3⟩ <;> rw [h3] at h2 <;> revert h2 <;> decide
    · rintro ⟨-, h3 | h3⟩ <;> rw [h3] at h2 <;> revert h2 <;> decide

theorem parseMantissa_isSome {l : List Char}
    (hall : ∀ c ∈ l, c.isDigit = true ∨ c = '.')
    (hany : ∃ c ∈ l, c.isDigit = true)
    (hdot : (l.filter (fun c => c == '.')).length ≤ 1) :
    (parseMantissa l).isSome = true := by
  unfold parseMantissa
  cases hrest : l.dropWhile Char.isDigit with
  | nil =>
    have hl : l.takeWhile Char.isDigit ≠ [] := by
      intro hip
      have hsp := List.takeWhile_append_dropWhile (p := Char.isDigit) (l := l)
      rw [hip, hrest] at hsp
      rcases hany with ⟨c, hc, -⟩
      rw [← hsp] at hc
      simp at hc
    simp [hl]
  | cons c fr =>
    have hcl : c ∈ l := mem_of_mem_dropWhile (by rw [hrest]; exact List.mem_cons_self c fr)
    have hcd : c.isDigit = false := dropWhile_head_false hrest
    have hcdot : c = '.' := by
      rcases hall c hcl with h | h
      · rw [hcd] at h; cases h
      · exact h
    have hsplit : l.takeWhile Char.isDigit ++ c :: fr = l := by
      rw [← hrest]; exact List.takeWhile_append_dropWhile (p := Char.isDigit) (l := l)
    have hfr : ∀ d ∈ fr, d.isDigit = true := by
      intro d hd
      rcases hall d (by rw [← hsplit]; simp [hd]) with h | h
      · exact h
      · exfalso
        have hfrpos : 0 < (fr.filter (fun x => x == '.')).length := by
          apply List.length_pos.mpr
          intro hnil
          have hmem : d ∈ fr.filter (fun x => x == '.') :=
            List.mem_filter.mpr ⟨hd, by simp [h]⟩
          rw [hnil] at hmem
          simp at hmem
        have hl2 : l.filter (fun x => x == '.') =
            (l.takeWhile Char.isDigit).filter (fun x => x == '.') ++
              '.' :: fr.filter (fun x => x == '.') := by
          conv_lhs => rw [← hsplit]
          rw [hcdot, List.filter_append, List.filter_cons]
          simp
        rw [hl2] at hdot
        simp only [List.length_append, List.length_cons] at hdot
        omega
    have hne : l.takeWhile Char.isDigit ≠ [] ∨ fr ≠ [] := by
      rcases hany with ⟨d, hdl, hdd⟩
      rw [← hsplit] at hdl
      rcases List.mem_append.mp hdl with h | h
      · left; intro hnil; rw [hnil] at h; simp at h
      · rcases List.mem_cons.mp h with h | h
        · rw [h] at hdd; rw [hcd] at hdd; cases hdd
        · right; intro hnil; rw [hnil] at h; simp at h
    have hred : (match c :: fr with
        | [] =>
          if l.takeWhile Char.isDigit = [] then none
          else some (digitsVal (l.takeWhile Char.isDigit), 0)
        | c :: fr =>
          if c = '.' ∧ (∀ d ∈ fr, d.isDigit = true) ∧
              (l.takeWhile Char.isDigit ≠ [] ∨ fr ≠ []) then
            some (digitsVal (l.takeWhile Char.isDigit ++ fr), fr.length)
          else none) =
      (if c = '.' ∧ (∀ d ∈ fr, d.isDigit = true) ∧
          (l.takeWhile Char.isDigit ≠ [] ∨ fr ≠ []) then
        some (digitsVal (l.takeWhile Char.isDigit ++ fr), fr.length)
      else none) := rfl
    rw [hred, if_pos ⟨hcdot, hfr, hne⟩]
    rfl

theorem jsStrToNumber_isSome_of_numericLooking {s : String}
    (h : numericLookingSpec s = true) : (jsStrToNumber s).isSome = true := by
  have hsplit := splitSign_shape s.toList
  unfold numericLookingSpec at h
  simp only [Bool.and_eq_true, decide_eq_true_eq, List.all_eq_true, List.any_eq_true,
    Bool.or_eq_true, beq_iff_eq] at h
  obtain ⟨⟨⟨hne, hany⟩, hall⟩, hdot⟩ := h
  have hmem : ∀ c ∈ s.toList, c ∈ (splitSign s.toList).2 ∨ (c = '+' ∨ c = '-') := by
    intro c hc
    rcases hsplit with hs | ⟨c0, hs, hc0⟩
    · left; rw [hs]; exact hc
    · rw [hs] at hc
      rcases List.mem_cons.mp hc with hcc | hcc
      · right; rw [hcc]; exact hc0
      · left; exact hcc
  have hws : ∀ c ∈ s.toList, isWSChar c = false := by
    intro c hc
    rcases hmem c hc with hm | hm
    · exact notWS_of_digit_dot (hall c hm)
    · rcases hm with hm | hm <;> rw [hm] <;> decide
  have hlne : s.toList ≠ [] := by
    rcases hsplit with hs | ⟨c0, hs, -⟩
    · rw [← hs]; exact hne
    · rw [hs]; exact List.cons_ne_nil c0 _
  have hdrop : ∀ c ∈ s.toList.drop 1, c.isDigit = true ∨ c = '.' := by
    intro c hc
    have hcl : c ∈ s.toList := List.mem_of_mem_drop hc
    rcases hsplit with hs | ⟨c0, hs, hc0⟩
    · exact hall c (by rw [hs]; exact hcl)
    · rw [hs] at hc
      simp only [List.drop_succ_cons, List.drop_zero] at hc
      exact hall c hc
  have htrim : trimJs s.toList = s.toList := trimJs_eq_self hws
  have hradix : radixTag s.toList = none := radixTag_none_of_digit_dot hdrop
  obtain ⟨v, hv⟩ : ∃ v, parseMantissa (splitSign s.toList).2 = some v := by
    have hs := parseMantissa_isSome (l := (splitSign s.toList).2) hall hany hdot
    exact Option.isSome_iff_exists.mp hs
  have hmt : ∀ c ∈ (splitSign s.toList).2, (decide (c ≠ 'e' ∧ c ≠ 'E')) = true := by
    intro c hc
    rw [decide_eq_true_eq]
    constructor
    · rintro rfl
      rcases hall _ hc with hh | hh <;> revert hh <;> decide
    · rintro rfl
      rcases hall _ hc with hh | hh <;> revert hh <;> decide
  have hinfl : "Infinity".toList = ['I', 'n', 'f', 'i', 'n', 'i', 't', 'y'] := by decide
  have hinf : (splitSign s.toList).2 ≠ "Infinity".toList := by
    intro heq
    cases hcs : (splitSign s.toList).2 with
    | nil => exact hne hcs
    | cons c t =>
      rw [hcs, hinfl] at heq
      have hI := hall c (by rw [hcs]; exact List.mem_cons_self c t)
      have hcI : c = 'I' := by
        have := congrArg (fun x => x.headI) heq
        simpa using this
      rw [hcI] at hI
      revert hI
      decide
  unfold jsStrToNumber
  rw [htrim, if_neg hlne]
  simp only [hradix]
  rw [if_neg hinf]
  simp only [dropWhile_eq_nil_of_all hmt, takeWhile_eq_self_of_all hmt]
  rw [hv]
  rfl

theorem qsParse_empty : qsParse "" = .obj [] := by decide

theorem jwtMw_user_unchanged {req : Req} {env : Env} (h : jwtFailure req env) :
    (payloadJwtAuthMiddleware req env).1 = req := by
  unfold payloadJwtAuthMiddleware
  by_cases h1 : env.secret = "" ∨ reqAuthHeader req = "" ∨
      ¬ strStartsWith (reqAuthHeader req) "Bearer "
  · rw [if_pos h1]
  · rw [if_neg h1]
    by_cases h2 : bearerToken req = ""
    · rw [if_pos h2]
    · rw [if_neg h2]
      cases hv : env.verify (bearerToken req) (env.sha256hex32 env.secret) with
      | error s => rfl
      | ok d =>
        dsimp only
        by_cases h3 : jsTruthy (getField d "id") = false
        · rw [if_pos h3]
        · rw [if_neg h3]
          cases hr : env.engineRun .findByID (jwtUserLookupArgs (getField d "id")) with
          | error e => rfl
          | ok doc =>
            dsimp only
            have hdoc : jsTruthy doc = false := by
              rcases h with ⟨s, hs⟩ | ⟨d2, hd2, hid⟩ | ⟨d2, e2, hd2, -, he2⟩ |
                  ⟨d2, doc2, hd2, -, hdoc2, hft⟩
              · rw [hs] at hv; cases hv
              · rw [hd2] at hv
                injection hv with hv2
                rw [hv2] at hid
                exact absurd hid h3
              · rw [hd2] at hv
                injection hv with hv2
                rw [hv2] at he2
                rw [he2] at hr
                cases hr
              · rw [hd2] at hv
                injection hv with hv2
                rw [hv2] at hdoc2
                rw [hdoc2] at hr
                injection hr with hr2
                rw [← hr2]
                exact hft
            rw [hdoc]
            rfl

theorem jwtMw_no_header {req : Req} {env : Env} (h : reqAuthHeader req = "") :
    payloadJwtAuthMiddleware req env = (req, []) := by
  unfold payloadJwtAuthMiddleware
  rw [if_pos (Or.inr (Or.inl h))]

theorem jwtMw_pair_of_failure {req : Req} {env : Env} (h : jwtFailure req env) :
    payloadJwtAuthMiddleware req env = (req, (payloadJwtAuthMiddleware req env).2) := by
  conv_lhs => rw [← Prod.mk.eta (p := payloadJwtAuthMiddleware req env)]
  rw [jwtMw_user_unchanged h]

theorem argLookup_foldl_no_key {l : Args} {k : String} (acc : Option ArgVal)
    (h : ∀ q ∈ l, q.1 ≠ k) :
    l.foldl (fun a q => if q.1 = k then some q.2 else a) acc = acc := by
  induction l generalizing acc with
  | nil => rfl
  | cons x xs ih =>
    rw [List.foldl_cons, if_neg (h x (List.mem_cons_self x xs))]
    exact ih acc (fun q hq => h q (List.mem_cons_of_mem x hq))

theorem argLookup_append_no_key {l1 l2 : Args} {k : String}
    (h : ∀ q ∈ l2, q.1 ≠ k) : argLookup (l1 ++ l2) k = argLookup l1 k := by
  unfold argLookup
  rw [List.foldl_append]
  exact argLookup_foldl_no_key _ h

/-- C8: the error translator classifies by testing validation shape
(name ValidationError or truthy data.errors), then status 401, then
the Not Found or Cast to ObjectId failed message markers, then falls
back to 500, with exactly the claimed bodies; stated as pointwise
equality with the spec-side first-match decision list, plus the
earliest-test-wins behavior on an error matching every test at once. -/
theorem c8_translator_ordering :
    (∀ e, errorHandler e = translatorSpec e) ∧
    errorHandler ambiguousErr =
      { status := 400
        body := .obj [("error", .str "Validation Failed"), ("message", .str "Not Found"),
                      ("data", .obj [("errors", .bool true)])] } := by
  constructor
  · intro e
    unfold errorHandler translatorSpec translatorRules
    cases h1 : (e.name == "ValidationError") || errDataErrors e <;>
      cases h2 : e.status == some 401 <;>
        cases h3 : strIncludes e.message "Not Found" ||
            strIncludes e.message "Cast to ObjectId failed" <;>
          simp [List.find?, h1, h2, h3]
  · decide

/-- C6 counterexample: the empty string is not numeric-looking and is
neither true nor false, yet the decoder coerces it to the number 0
(JavaScript Number of the empty string is 0) instead of keeping it a
string. -/
theorem c6_counterexample :
    decoder "" = .num (.q 0) ∧ decoder "" ≠ .str "" ∧
    numericLookingSpec "" = false ∧ "" ≠ "true" ∧ "" ≠ "false" := by
  exact ⟨by decide, by decide, by decide, by decide, by decide⟩

/-- C6 amended: the decoder coerces every value whose JavaScript
Number conversion is not NaN to that number (in particular every
numeric-looking string, and also the empty or whitespace-only string,
which becomes 0), the exact strings true and false to booleans, and
leaves every other value a string; the coercion is applied to the
scalar value alone, independent of the key it sits under. -/
theorem c6_amended_value_coercion :
    (∀ s n, jsStrToNumber s = some n → decoder s = .num n) ∧
    (∀ s, numericLookingSpec s = true → ∃ n, decoder s = .num n) ∧
    (∀ s, jsStrToNumber s = none → s ≠ "true" → s ≠ "false" → decoder s = .str s) ∧
    decoder "true" = .bool true ∧ decoder "false" = .bool false ∧
    jsStrToNumber "" = some (.q 0) ∧ jsStrToNumber " " = some (.q 0) ∧
    (∀ k v, qsPairsToObj [(k, v)] = .obj [(jsToString (decoder k), decoder v)]) := by
  refine ⟨?_, ?_, ?_, by decide, by decide, by decide, by decide, ?_⟩
  · intro s n hn
    unfold decoder
    rw [hn]
  · intro s hs
    obtain ⟨n, hn⟩ :=
      Option.isSome_iff_exists.mp (jsStrToNumber_isSome_of_numericLooking hs)
    exact ⟨n, by unfold decoder; rw [hn]⟩
  · intro s hn ht hf
    unfold decoder
    rw [hn]
    rw [if_neg ht, if_neg hf]
  · intro k v
    rfl

/-- C6 witness: the amended coercion statement applied at concrete
inputs, discharging each hypothesis. -/
theorem c6_amended_witness :
    decoder "12" = .num (.q 12) ∧ (∃ n, decoder "34" = .num n) ∧ decoder "xyz" = .str "xyz" := by
  exact ⟨c6_amended_value_coercion.1 "12" (.q 12) (by decide),
         c6_amended_value_coercion.2.1 "34" (by decide),
         c6_amended_value_coercion.2.2.1 "xyz" (by decide) (by decide) (by decide)⟩

/-- C2 (code bug at the me route): GET /api/users/me with no
Authorization header and therefore no resolved user is answered 500
Server Error, not 401: the route has no isAuthenticated gate, the
handler destructures req.user, and the TypeError lands in the 500
branch of the translator — contradicting both the claim and the
comment on the route that promises 401 when unauthorized. -/
theorem c2_me_route_answers_500 :
    reqMeNoAuth.user = none ∧ reqAuthHeader reqMeNoAuth = "" ∧
    routerDispatch reqMeNoAuth envStd =
      (.response { status := 500
                   body := .obj [("error", .str "Server Error"),
                                 ("message", .str destructureIdErr.message)] }, []) := by
  exact ⟨rfl, by decide, by decide⟩

/-- C3 (code bug in the catch-all layer): posts is a registered
collection, yet GET /api/posts is handled by the custom endpoint
registered at the path /api/posts and the CRUD find route never runs:
req.params.customPath is always undefined because Express numbers the
capture groups of a RegExp route, so the registered-collection check
can never yield control to the CRUD routes first. -/
theorem c3_collection_check_never_fires :
    envShadow.collections.contains "posts" = true ∧
    shadowEndpoint.path = reqFullPath reqPostsList ∧
    routerDispatch reqPostsList envShadow =
      (.response { status := 200, body := .obj [("custom", .bool true)] },
       [.endpointInvoke "/api/posts" "GET"]) := by
  exact ⟨by decide, by decide, by decide⟩

/-- C4 counterexample: two endpoints share the path /api/special, GET
registered before POST; a POST request exactly matches the method and
path of the second endpoint, yet no handler is invoked and the request
falls out of the router, because the search is find-first-by-path and
the first hit has the wrong method. -/
theorem c4_counterexample :
    specialPostEndpoint.path = reqFullPath reqSpecialPost ∧
    toUpperJs specialPostEndpoint.method = reqSpecialPost.method ∧
    specialPostEndpoint ∈ envSpecial.endpoints ∧
    routerDispatch reqSpecialPost envSpecial = (.passedOn, []) := by
  refine ⟨by decide, by decide, ?_, by decide⟩
  exact List.mem_cons_of_mem _ (List.mem_cons_self _ _)

/-- C4 amended: only the first registered endpoint whose path equals
the request path is considered; its handler is invoked exactly when
its uppercased method equals the request method, and on a method
mismatch the layer falls through with no handler invoked — even when
a later endpoint matches both path and method. -/
theorem c4_amended_first_path_match (req : Req) (env : Env) (p seg : String)
    (rest : List String) (ep : Endpoint)
    (hseg : req.segments = p :: seg :: rest) (hp : p = "api" ∨ p = "auth") (hsne : seg ≠ "")
    (hfind : env.endpoints.find? (fun e => e.path == reqFullPath req) = some ep)
    (hh : ep.hasHandler = true) :
    ((layerAll req env).2 = [Call.endpointInvoke ep.path ep.method] ↔
      toUpperJs ep.method = req.method) ∧
    (toUpperJs ep.method ≠ req.method → layerAll req env = (.next req, [])) := by
  unfold layerAll
  rw [hseg]
  dsimp only
  rw [if_pos ⟨hp, hsne⟩]
  simp only [Option.map_none', Option.getD_none, Bool.false_eq_true, if_false]
  rw [hfind]
  dsimp only
  rw [hh]
  simp only [if_true]
  by_cases hm : toUpperJs ep.method = req.method
  · rw [if_neg (fun hne => hne hm)]
    constructor
    · constructor
      · intro _; exact hm
      · intro _; rfl
    · intro hne; exact absurd hm hne
  · rw [if_pos hm]
    constructor
    · constructor
      · intro hl; simp at hl
      · intro hmm; exact absurd hmm hm
    · intro _; rfl

/-- C4 witness: a single GET endpoint at /api/special is invoked on a
GET request (the trace records the invocation), by the amended
theorem at a concrete input. -/
theorem c4_amended_witness :
    (layerAll reqSpecialGet envSpecial).2 = [Call.endpointInvoke "/api/special" "GET"] := by
  exact (c4_amended_first_path_match reqSpecialGet envSpecial "api" "special" []
    specialGetEndpoint rfl (Or.inl rfl) (by decide) rfl rfl).1.mpr (by decide)

/-- C5 counterexample: a successful authenticated POST /api/posts
calls the engine with a create argument object whose field list is
exactly collection and data — the live request object is not among
the arguments, so the engine cannot apply request-based access rules
to this call. -/
theorem c5_counterexample :
    routerDispatch reqCreatePost envStd =
      (.response { status := 201, body := .null },
       [.engine .create [("collection", .v (.str "posts")),
                         ("data", .v (.obj [("title", .str "t")]))]]) ∧
    argLookup (createCallArgs "posts" (.obj [("title", .str "t")])) "req" = none := by
  exact ⟨by decide, by decide⟩

/-- C5 amended: the read routes (find-many, count, find-by-id) pass
the live request object to the content engine, as long as no query
parameter spread after it is itself named req; the create, update and
delete calls carry no request object at all. -/
theorem c5_amended_req_passing :
    (∀ q c, (∀ f ∈ spreadQuery q, f.1 ≠ "req") →
      argLookup (findCallArgs q c) "req" = some .reqRef) ∧
    (∀ q c, (∀ f ∈ spreadQuery q, f.1 ≠ "req") →
      argLookup (countCallArgs q c) "req" = some .reqRef) ∧
    (∀ q c i, (∀ f ∈ spreadQuery q, f.1 ≠ "req") →
      argLookup (findByIDCallArgs q c i) "req" = some .reqRef) ∧
    (∀ c b, argLookup (createCallArgs c b) "req" = none) ∧
    (∀ c i b, argLookup (updateCallArgs c i b) "req" = none) ∧
    (∀ c i, argLookup (deleteCallArgs c i) "req" = none) := by
  refine ⟨?_, ?_, ?_, ?_, ?_, ?_⟩
  · intro q c h
    unfold findCallArgs
    rw [argLookup_append_no_key h]
    simp [argLookup, List.foldl]
  · intro q c h
    unfold countCallArgs
    rw [argLookup_append_no_key h]
    simp [argLookup, List.foldl]
  · intro q c i h
    unfold findByIDCallArgs
    rw [argLookup_append_no_key h]
    simp [argLookup, List.foldl]
  · intro c b
    simp [createCallArgs, argLookup, List.foldl]
  · intro c i b
    simp [updateCallArgs, argLookup, List.foldl]
  · intro c i
    simp [deleteCallArgs, argLookup, List.foldl]

/-- C5 witness: the amended statement applied at a concrete query
object with one ordinary parameter. -/
theorem c5_amended_witness :
    argLookup (findCallArgs (.obj [("limit", .num (.q 5))]) "posts") "req" = some .reqRef := by
  exact c5_amended_req_passing.1 (.obj [("limit", .num (.q 5))]) "posts" (by decide)

/-- C1 counterexample: the error raised by the custom endpoint handler
at GET /api/boom is caught inside the catch-all layer, which exits the
router with next("router"): the outcome is passedOn, no response is
written, and the terminal error translator never runs — so this
handler error escapes the router untranslated, contradicting the
claim that every handler error is mapped to a JSON error body. -/
theorem c1_counterexample :
    routerDispatch reqBoom envBoom = (.passedOn, [.endpointInvoke "/api/boom" "GET"]) := by
  decide

/-- C1 amended: every response of the terminal error translator is a
JSON object carrying an error or errors key with status 400, 401, 404
or 500, and an error raised by any of the nine asyncHandler-wrapped
route handlers (login, logout, me, find-many, count, find-by-id,
create, update, delete — here each with its engine call failing with
an arbitrary error) is forwarded to that translator; an error raised
by a custom endpoint handler, by contrast, is caught inside the
catch-all layer and leaves the router with no response written (the
C1 counterexample), so the translator is terminal for the auth and
CRUD routes but not for custom endpoints. -/
theorem c1_amended_translator_terminal :
    (∀ e, ((errorHandler e).status = 400 ∨ (errorHandler e).status = 401 ∨
           (errorHandler e).status = 404 ∨ (errorHandler e).status = 500) ∧
          hasErrKey (errorHandler e).body) ∧
    (∀ env c b e, c ≠ "" → c ∈ env.collections → env.endpoints = [] →
      env.engineRun .login (loginCallArgs c b) = .error e →
      routerDispatch (mkLoginReq c b) env =
        (.response (errorHandler e), [.engine .login (loginCallArgs c b)])) ∧
    (∀ env c e, c ≠ "" → c ∈ env.collections → env.endpoints = [] →
      env.engineRun .logout (logoutCallArgs c) = .error e →
      routerDispatch (mkLogoutReq c) env =
        (.response (errorHandler e), [.engine .logout (logoutCallArgs c)])) ∧
    (∀ env c u e, c ≠ "" → c ∈ env.collections → env.endpoints = [] →
      env.engineRun .findByID (meCallArgs c (getField u "id")) = .error e →
      routerDispatch (mkMeReq c u) env =
        (.response (errorHandler e), [.engine .findByID (meCallArgs c (getField u "id"))])) ∧
    (∀ env c u e, c ≠ "" → c ∈ env.collections → env.endpoints = [] →
      env.engineRun .find (findCallArgs (qsParse "") c) = .error e →
      routerDispatch (mkAuthedGetReq c u) env =
        (.response (errorHandler e), [.engine .find (findCallArgs (qsParse "") c)])) ∧
    (∀ env c u e, c ≠ "" → c ∈ env.collections → env.endpoints = [] →
      env.engineRun .count (countCallArgs (qsParse "") c) = .error e →
      routerDispatch (mkCountReq c u) env =
        (.response (errorHandler e), [.engine .count (countCallArgs (qsParse "") c)])) ∧
    (∀ env c i u e, c ≠ "" → i ≠ "" → i ≠ "me" → i ≠ "count" →
      c ∈ env.collections → env.endpoints = [] →
      env.engineRun .findByID (findByIDCallArgs (.obj []) c i) = .error e →
      routerDispatch (mkGetIdReq c i u) env =
        (.response (errorHandler e), [.engine .findByID (findByIDCallArgs (.obj []) c i)])) ∧
    (∀ env c u b e, c ≠ "" → c ∈ env.collections → env.endpoints = [] →
      env.engineRun .create (createCallArgs c b) = .error e →
      routerDispatch (mkAuthedPostReq c u b) env =
        (.response (errorHandler e), [.engine .create (createCallArgs c b)])) ∧
    (∀ env c i u b e, c ≠ "" → i ≠ "" → c ∈ env.collections → env.endpoints = [] →
      env.engineRun .update (updateCallArgs c i b) = .error e →
      routerDispatch (mkPatchReq c i u b) env =
        (.response (errorHandler e), [.engine .update (updateCallArgs c i b)])) ∧
    (∀ env c i u e, c ≠ "" → i ≠ "" → c ∈ env.collections → env.endpoints = [] →
      env.engineRun .del (deleteCallArgs c i) = .error e →
      routerDispatch (mkDeleteReq c i u) env =
        (.response (errorHandler e), [.engine .del (deleteCallArgs c i)])) := by
  refine ⟨?_, ?_, ?_, ?_, ?_, ?_, ?_, ?_, ?_, ?_⟩
  · intro e
    unfold errorHandler
    by_cases h1 : ((e.name == "ValidationError") || errDataErrors e) = true
    · rw [if_pos h1]
      refine ⟨Or.inl rfl, ?_⟩
      unfold hasErrKey
      left
      simp [getField, List.find?]
    · rw [if_neg h1]
      by_cases h2 : (e.status == some 401) = true
      · rw [if_pos h2]
        refine ⟨Or.inr (Or.inl rfl), ?_⟩
        unfold hasErrKey
        right
        simp [getField, List.find?]
      · rw [if_neg h2]
        by_cases h3 : (strIncludes e.message "Not Found" ||
            strIncludes e.message "Cast to ObjectId failed") = true
        · rw [if_pos h3]
          refine ⟨Or.inr (Or.inr (Or.inl rfl)), ?_⟩
          unfold hasErrKey
          left
          simp [getField, List.find?]
        · rw [if_neg h3]
          refine ⟨Or.inr (Or.inr (Or.inr rfl)), ?_⟩
          unfold hasErrKey
          left
          simp [getField, List.find?]
  · intro env c b e hc hcol hep hrun
    simp only [mkLoginReq]
    simp [routerDispatch, seqStep, finalize, layerAll, layerCollectionGate, loginRoute,
      logoutRoute, meRoute, findManyRoute, countRoute, findByIDRoute, createRoute,
      updateRoute, deleteRoute, isAuthenticated, hep, hcol, hc, hrun]
  · intro env c e hc hcol hep hrun
    simp only [mkLogoutReq]
    simp [routerDispatch, seqStep, finalize, layerAll, layerCollectionGate, loginRoute,
      logoutRoute, meRoute, findManyRoute, countRoute, findByIDRoute, createRoute,
      updateRoute, deleteRoute, isAuthenticated, hep, hcol, hc, hrun]
  · intro env c u e hc hcol hep hrun
    have hmw : payloadJwtAuthMiddleware (mkMeReq c u) env = (mkMeReq c u, []) :=
      jwtMw_no_header rfl
    simp only [mkMeReq] at hmw ⊢
    simp [routerDispatch, seqStep, finalize, layerAll, layerCollectionGate, loginRoute,
      logoutRoute, meRoute, findManyRoute, countRoute, findByIDRoute, createRoute,
      updateRoute, deleteRoute, isAuthenticated, hmw, hep, hcol, hc, hrun]
  · intro env c u e hc hcol hep hrun
    have hmw : payloadJwtAuthMiddleware (mkAuthedGetReq c u) env = (mkAuthedGetReq c u, []) :=
      jwtMw_no_header rfl
    simp only [mkAuthedGetReq] at hmw ⊢
    simp [routerDispatch, seqStep, finalize, layerAll, layerCollectionGate, loginRoute,
      logoutRoute, meRoute, findManyRoute, countRoute, findByIDRoute, createRoute,
      updateRoute, deleteRoute, isAuthenticated, queryParser, hmw, hep, hcol, hc, hrun]
  · intro env c u e hc hcol hep hrun
    have hmw : payloadJwtAuthMiddleware (mkCountReq c u) env = (mkCountReq c u, []) :=
      jwtMw_no_header rfl
    simp only [mkCountReq] at hmw ⊢
    simp [routerDispatch, seqStep, finalize, layerAll, layerCollectionGate, loginRoute,
      logoutRoute, meRoute, findManyRoute, countRoute, findByIDRoute, createRoute,
      updateRoute, deleteRoute, isAuthenticated, queryParser, hmw, hep, hcol, hc, hrun]
  · intro env c i u e hc hi hime hicnt hcol hep hrun
    have hmw : payloadJwtAuthMiddleware (mkGetIdReq c i u) env = (mkGetIdReq c i u, []) :=
      jwtMw_no_header rfl
    simp only [mkGetIdReq] at hmw ⊢
    simp [routerDispatch, seqStep, finalize, layerAll, layerCollectionGate, loginRoute,
      logoutRoute, meRoute, findManyRoute, countRoute, findByIDRoute, createRoute,
      updateRoute, deleteRoute, isAuthenticated, hmw, hep, hcol, hc, hi, hime, hicnt, hrun]
  · intro env c u b e hc hcol hep hrun
    have hmw : payloadJwtAuthMiddleware (mkAuthedPostReq c u b) env =
        (mkAuthedPostReq c u b, []) := jwtMw_no_header rfl
    simp only [mkAuthedPostReq] at hmw ⊢
    simp [routerDispatch, seqStep, finalize, layerAll, layerCollectionGate, loginRoute,
      logoutRoute, meRoute, findManyRoute, countRoute, findByIDRoute, createRoute,
      updateRoute, deleteRoute, isAuthenticated, queryParser, hmw, hep, hcol, hc, hrun]
  · intro env c i u b e hc hi hcol hep hrun
    have hmw : payloadJwtAuthMiddleware (mkPatchReq c i u b) env = (mkPatchReq c i u b, []) :=
      jwtMw_no_header rfl
    simp only [mkPatchReq] at hmw ⊢
    simp [routerDispatch, seqStep, finalize, layerAll, layerCollectionGate, loginRoute,
      logoutRoute, meRoute, findManyRoute, countRoute, findByIDRoute, createRoute,
      updateRoute, deleteRoute, isAuthenticated, hmw, hep, hcol, hc, hi, hrun]
  · intro env c i u e hc hi hcol hep hrun
    have hmw : payloadJwtAuthMiddleware (mkDeleteReq c i u) env = (mkDeleteReq c i u, []) :=
      jwtMw_no_header rfl
    simp only [mkDeleteReq] at hmw ⊢
    simp [routerDispatch, seqStep, finalize, layerAll, layerCollectionGate, loginRoute,
      logoutRoute, meRoute, findManyRoute, countRoute, findByIDRoute, createRoute,
      updateRoute, deleteRoute, isAuthenticated, hmw, hep, hcol, hc, hi, hrun]

/-- C1 witness: the amended statement applied at a concrete
environment whose engine fails every call, exercising the login
clause, the find-many clause and the delete clause. -/
theorem c1_amended_witness :
    routerDispatch (mkLoginReq "users" (.obj [])) errEngineEnv =
      (.response (errorHandler { message := "boom" }),
       [.engine .login (loginCallArgs "users" (.obj []))]) ∧
    routerDispatch (mkAuthedGetReq "posts" sampleDoc) errEngineEnv =
      (.response (errorHandler { message := "boom" }),
       [.engine .find (findCallArgs (qsParse "") "posts")]) ∧
    routerDispatch (mkDeleteReq "posts" "p7" sampleDoc) errEngineEnv =
      (.response (errorHandler { message := "boom" }),
       [.engine .del (deleteCallArgs "posts" "p7")]) := by
  refine ⟨?_, ?_, ?_⟩
  · exact c1_amended_translator_terminal.2.1 errEngineEnv "users" (.obj [])
      { message := "boom" } (by decide) (by decide) rfl rfl
  · exact c1_amended_translator_terminal.2.2.2.2.1 errEngineEnv "posts" sampleDoc
      { message := "boom" } (by decide) (by decide) rfl rfl
  · exact c1_amended_translator_terminal.2.2.2.2.2.2.2.2.2 errEngineEnv "posts" "p7" sampleDoc
      { message := "boom" } (by decide) (by decide) (by decide) rfl rfl

/-- C7: a present bearer token that fails verification, decodes
without a truthy user id, or resolves to no user record leaves the
request without a user, and the auth-gated find-many route then
answers exactly the 401 body of the gate; the middleware cannot
forward an error (it returns a request, never an error step), so no
token failure reaches the error translator. -/
theorem c7_bad_token_fails_open (env : Env) (c : String) (hdrs : List (String × String))
    (hc : c ≠ "") (hcol : c ∈ env.collections) (hep : env.endpoints = [])
    (hfail : jwtFailure (mkGetReq c hdrs) env) :
    (payloadJwtAuthMiddleware (mkGetReq c hdrs) env).1 = mkGetReq c hdrs ∧
    (routerDispatch (mkGetReq c hdrs) env).1 = .response authRequiredResponse := by
  refine ⟨jwtMw_user_unchanged hfail, ?_⟩
  obtain ⟨t, hmw⟩ : ∃ t, payloadJwtAuthMiddleware (mkGetReq c hdrs) env = (mkGetReq c hdrs, t) :=
    ⟨_, jwtMw_pair_of_failure hfail⟩
  simp only [mkGetReq] at hmw ⊢
  simp [routerDispatch, seqStep, finalize, layerAll, layerCollectionGate, loginRoute,
    logoutRoute, meRoute, findManyRoute, countRoute, findByIDRoute, createRoute,
    updateRoute, deleteRoute, isAuthenticated, hmw, hep, hcol, hc]

/-- C7 witness: a request with a bearer token the verifier rejects,
against an engine with a registered posts collection, answers 401. -/
theorem c7_bad_token_witness :
    (routerDispatch (mkGetReq "posts" [("authorization", "Bearer deadbeef")]) envStd).1 =
      .response authRequiredResponse := by
  exact (c7_bad_token_fails_open envStd "posts" [("authorization", "Bearer deadbeef")]
    (by decide) (by decide) rfl (Or.inl ⟨"invalid signature", rfl⟩)).2

/-- C9: when the find-by-id call of the engine returns a falsy record for
an authenticated GET /api/:collection/:id, the route answers 404 and
the message of the JSON body contains both the collection name and
the requested id as substrings. -/
theorem c9_missing_id_404 (env : Env) (c i : String) (u : JVal)
    (hc : c ≠ "") (hi : i ≠ "") (hime : i ≠ "me") (hicnt : i ≠ "count")
    (hcol : c ∈ env.collections) (hep : env.endpoints = [])
    (hrun : env.engineRun .findByID (findByIDCallArgs (.obj []) c i) = .ok .null) :
    routerDispatch (mkGetIdReq c i u) env =
      (.response { status := 404
                   body := .obj [("error", .str (c ++ " with ID " ++ i ++ " not found."))] },
       [.engine .findByID (findByIDCallArgs (.obj []) c i)]) ∧
    (∃ x y, (c ++ " with ID " ++ i ++ " not found.").toList = x ++ c.toList ++ y) ∧
    (∃ x y, (c ++ " with ID " ++ i ++ " not found.").toList = x ++ i.toList ++ y) := by
  refine ⟨?_, ⟨[], (" with ID " ++ i ++ " not found.").toList, ?_⟩,
    ⟨(c ++ " with ID ").toList, " not found.".toList, ?_⟩⟩
  · have hmw : payloadJwtAuthMiddleware (mkGetIdReq c i u) env = (mkGetIdReq c i u, []) :=
      jwtMw_no_header rfl
    simp only [mkGetIdReq] at hmw ⊢
    simp [routerDispatch, seqStep, finalize, layerAll, layerCollectionGate, loginRoute,
      logoutRoute, meRoute, findManyRoute, countRoute, findByIDRoute, createRoute,
      updateRoute, deleteRoute, isAuthenticated, hmw, hep, hcol, hc, hi, hime, hicnt, hrun,
      jsTruthy]
  · simp [String.toList, String.data_append, List.append_assoc]
  · simp [String.toList, String.data_append, List.append_assoc]

/-- C9 witness: the 404 statement at a concrete collection and id. -/
theorem c9_missing_id_witness :
    routerDispatch (mkGetIdReq "posts" "p7" sampleDoc) envStd =
      (.response { status := 404
                   body := .obj [("error", .str ("posts" ++ " with ID " ++ "p7" ++ " not found."))] },
       [.engine .findByID (findByIDCallArgs (.obj []) "posts" "p7")]) := by
  exact (c9_missing_id_404 envStd "posts" "p7" sampleDoc (by decide) (by decide) (by decide)
    (by decide) (by decide) rfl rfl).1

/-- C10: a request under /api whose collection segment names no
registered collection, and whose path equals no registered custom
endpoint path, produces no response and no engine call: the router
passes it on (the catch-all layer finds no endpoint and the
collection gate exits with next("router") before any handler runs),
and in particular never answers 404 itself. -/
theorem c10_unknown_collection_passes_on (env : Env) (m c : String) (rest : List String)
    (u : Option JVal) (b q : JVal)
    (hc : c ≠ "") (hcol : c ∉ env.collections)
    (hep : env.endpoints.find?
      (fun e => e.path == reqFullPath (mkApiReq m c rest u b q)) = none) :
    routerDispatch (mkApiReq m c rest u b q) env = (.passedOn, []) := by
  simp only [mkApiReq] at hep ⊢
  simp [routerDispatch, seqStep, finalize, layerAll, layerCollectionGate, hc, hcol, hep]

/-- C10 witness: GET /api/nosuch/x against an engine that only knows
users and posts passes out of the router untouched. -/
theorem c10_unknown_collection_witness :
    routerDispatch (mkApiReq "GET" "nosuch" ["x"] none .null (.obj [])) envStd =
      (.passedOn, []) := by
  exact c10_unknown_collection_passes_on envStd "GET" "nosuch" ["x"] none .null (.obj [])
    (by decide) (by decide) rfl
